import Mathlib

/-
  Verification development for the Neutra workout-tracking app.

  Shallow embedding of the Workout Session Engine found in
  src/app/(tabs)/index.tsx (the WorkoutScreen component), the RestTimer
  component, and the SQLite schema created by the DatabaseProvider.
  Weights and volumes are modelled as rationals, timestamps as natural
  numbers of milliseconds, and the relational store as lists of rows with
  per-table autoincrement counters.  A fallible insert sequence is modelled
  by an injected failure schedule (the index of the insert that throws),
  matching the behaviour of sequential awaited `db.runAsync` calls inside a
  single try/catch with no enclosing transaction.
-/

namespace Neutra

/-- Catalog exercise, as selected into the WorkoutScreen (only the fields
the session engine reads are kept). -/
structure Exercise where
  id : Nat
  name : String
deriving DecidableEq

/-- In-memory set of an active session (interface WorkoutSet in
src/app/(tabs)/index.tsx). -/
structure WorkoutSet where
  set_number : Nat
  reps : Nat
  weight : ℚ
  completed : Bool
  is_warmup : Bool
  rest_time_seconds : Option Nat
  rpe : Option Nat
  notes : Option String
deriving DecidableEq

/-- In-memory exercise of an active session (interface ActiveExercise). -/
structure ActiveExercise where
  exercise : Exercise
  sets : List WorkoutSet
  notes : Option String
deriving DecidableEq

/-- The WorkoutScreen component state relevant to the session engine:
isWorkoutActive, workoutStartTime (ms since epoch, None when unset),
activeExercises, the displayed elapsed timer and the workout notes. -/
structure WorkoutScreenState where
  isWorkoutActive : Bool
  workoutStartTime : Option Nat
  activeExercises : List ActiveExercise
  timer : Nat
  workoutNotes : String
deriving DecidableEq

/-- The authenticated user fields the engine reads. -/
structure User where
  id : Nat
  preferred_weight_unit : String
deriving DecidableEq

/-! ## Session state machine operations (src/app/(tabs)/index.tsx) -/

/-- `startWorkout` (line 1024): unconditionally sets the session active,
captures a fresh start timestamp and zeroes the displayed timer.  There is
no check that a session is already active. -/
def startWorkout (now : Nat) (s : WorkoutScreenState) : WorkoutScreenState :=
  { s with isWorkoutActive := true, workoutStartTime := some now, timer := 0 }

/-- `resetWorkout` (line 1161): clears all in-memory session state. -/
def resetWorkout (s : WorkoutScreenState) : WorkoutScreenState :=
  { s with
      isWorkoutActive := false
      workoutStartTime := none
      activeExercises := []
      timer := 0
      workoutNotes := "" }

/-- The ActiveExercise built by `addExercise` (line 1169): exactly one
default set, number 1, reps 0, weight 0, not completed, warm-up. -/
def newActiveExercise (ex : Exercise) : ActiveExercise :=
  ⟨ex, [⟨1, 0, 0, false, true, none, none, none⟩], none⟩

/-- `addExercise` (line 1169): appends a fresh ActiveExercise. -/
def addExercise (ex : Exercise) (s : WorkoutScreenState) : WorkoutScreenState :=
  { s with activeExercises := s.activeExercises ++ [newActiveExercise ex] }

/-- `addSet` (line 1184) at the level of one exercise.  The code reads
`sets[sets.length - 1]` and then its fields; when the set list is empty that
is a property read on `undefined`, a runtime TypeError, modelled as `none`.
Otherwise a new set is appended copying reps, weight and rest seconds of the
last set, with set number last + 1, not completed, not warm-up. -/
def addSetJS (e : ActiveExercise) : Option ActiveExercise :=
  match e.sets.getLast? with
  | none => none
  | some lastSet =>
      some { e with
        sets := e.sets ++
          [⟨lastSet.set_number + 1, lastSet.reps, lastSet.weight, false,
            false, lastSet.rest_time_seconds, none, none⟩] }

/-- The renumbering loop of `removeSet` (line 1227): every remaining set
receives set number `index + 1`, counting from `k`. -/
def renumberFrom (k : Nat) : List WorkoutSet → List WorkoutSet
  | [] => []
  | s :: rest => { s with set_number := k } :: renumberFrom (k + 1) rest

/-- `removeSet` (line 1222) at the level of one exercise: drop the set at
`setIndex` (filter on index), then renumber the remaining sets 1.. . -/
def removeSetJS (e : ActiveExercise) (setIndex : Nat) : ActiveExercise :=
  { e with sets := renumberFrom 1 (e.sets.eraseIdx setIndex) }

/-- One user interaction on a single exercise's set list. -/
inductive SetOp where
  | add
  | remove (setIndex : Nat)
deriving DecidableEq

/-- Run a sequence of add/remove-set operations on one exercise; `none`
propagates the `addSet` runtime fault. -/
def runSetOps : List SetOp → ActiveExercise → Option ActiveExercise
  | [], e => some e
  | SetOp.add :: ops, e => (addSetJS e).bind (runSetOps ops)
  | SetOp.remove i :: ops, e => runSetOps ops (removeSetJS e i)

/-! ## Relational store (DatabaseProvider, src/unnamed/part_006) -/

/-- Row of the `workouts` table as inserted by `endWorkout`. -/
structure WorkoutRow where
  id : Nat
  user_id : Nat
  start_time : Nat
  end_time : Nat
  duration_seconds : Nat
  total_volume : ℚ
  notes : String
deriving DecidableEq

/-- Row of the `workout_exercises` table as inserted by `endWorkout`. -/
structure WorkoutExerciseRow where
  id : Nat
  workout_id : Nat
  exercise_id : Nat
  order_index : Nat
  notes : String
deriving DecidableEq

/-- Row of the `workout_sets` table as the insert statement of `endWorkout`
names its columns (note: the claim about the created schema is settled
separately on the literal column lists below). -/
structure WorkoutSetRow where
  id : Nat
  workout_exercise_id : Nat
  set_number : Nat
  reps : Nat
  weight : ℚ
  weight_unit : String
  completed : Bool
  is_warmup : Bool
  rest_time_seconds : Option Nat
  rpe : Option Nat
  notes : String
deriving DecidableEq

/-- Row of the `personal_records` table. -/
structure PersonalRecordRow where
  id : Nat
  user_id : Nat
  exercise_id : Nat
  record_type : String
  value : ℚ
  reps : Option Nat
  weight : Option ℚ
  weight_unit : Option String
  workout_id : Option Nat
deriving DecidableEq

/-- The relational store: one list of rows per table plus per-table
autoincrement counters (SQLite INTEGER PRIMARY KEY AUTOINCREMENT). -/
structure DB where
  workouts : List WorkoutRow
  workout_exercises : List WorkoutExerciseRow
  workout_sets : List WorkoutSetRow
  personal_records : List PersonalRecordRow
  nextWorkoutId : Nat
  nextWorkoutExerciseId : Nat
  nextWorkoutSetId : Nat
  nextPersonalRecordId : Nat
deriving DecidableEq

/-- Column list of `CREATE TABLE workout_sets` in the DatabaseProvider
(src/unnamed/part_006 lines 138-154), in source order. -/
def createWorkoutSetsColumns : List String :=
  ["id", "workout_id", "exercise_id", "set_number", "reps", "weight",
   "weight_unit", "completed", "is_warmup", "rest_time_seconds", "rpe",
   "notes", "created_at"]

/-- Column list named by the `INSERT INTO workout_sets` statement of
`endWorkout` (src/app/(tabs)/index.tsx line 1079), in source order. -/
def insertWorkoutSetsColumns : List String :=
  ["workout_exercise_id", "set_number", "reps", "weight", "weight_unit",
   "completed", "is_warmup", "rest_time_seconds", "rpe", "notes"]

/-- An INSERT naming an explicit column list succeeds against a table
schema only if every named column exists in that schema. -/
def insertColumnsOk (insertCols schemaCols : List String) : Bool :=
  insertCols.all (fun c => schemaCols.contains c)

/-! ## Persistence Writer (`endWorkout`, src/app/(tabs)/index.tsx 1030-1108)

The write is a sequence of awaited inserts inside one try/catch with no
transaction.  Failure of the k-th insert (0 = workout header, then one per
workout-exercise row interleaved with its set rows) is injected through a
schedule `fails : Nat → Bool`; on failure the rows already inserted stay in
the store, exactly as sequential `runAsync` calls behave without a
transaction. -/

/-- Result of a fallible insert sequence: either all inserts succeeded
(carrying the next insert index), or one threw, keeping prior effects. -/
inductive WriteResult where
  | ok (db : DB) (k : Nat)
  | failed (db : DB)
deriving DecidableEq

/-- JavaScript `x || null` on an optional number: 0 and undefined both
collapse to null. -/
def orNull (o : Option Nat) : Option Nat :=
  match o with
  | some t => if t = 0 then none else some t
  | none => none

/-- The workout-set insert loop of `endWorkout` (lines 1077-1093): one
`workout_sets` row per set, in original order, referencing the
workout-exercise id created for the owning exercise and stamped with the
user's preferred weight unit. -/
def saveSets (fails : Nat → Bool) (unit : String) (weId : Nat) :
    List WorkoutSet → DB → Nat → WriteResult
  | [], db, k => WriteResult.ok db k
  | s :: rest, db, k =>
      if fails k then WriteResult.failed db
      else
        saveSets fails unit weId rest
          { db with
            workout_sets := db.workout_sets ++
              [⟨db.nextWorkoutSetId, weId, s.set_number, s.reps, s.weight,
                unit, s.completed, s.is_warmup, orNull s.rest_time_seconds,
                orNull s.rpe, s.notes.getD ""⟩]
            nextWorkoutSetId := db.nextWorkoutSetId + 1 }
          (k + 1)

/-- The exercise insert loop of `endWorkout` (lines 1065-1094): for each
ActiveExercise in order, one `workout_exercises` row (order index = 0-based
position), then its set rows. -/
def saveExercises (fails : Nat → Bool) (unit : String) (workoutId : Nat) :
    List ActiveExercise → Nat → DB → Nat → WriteResult
  | [], _, db, k => WriteResult.ok db k
  | ae :: rest, i, db, k =>
      if fails k then WriteResult.failed db
      else
        let weId := db.nextWorkoutExerciseId
        let db1 : DB :=
          { db with
            workout_exercises := db.workout_exercises ++
              [⟨weId, workoutId, ae.exercise.id, i, ae.notes.getD ""⟩]
            nextWorkoutExerciseId := weId + 1 }
        match saveSets fails unit weId ae.sets db1 (k + 1) with
        | WriteResult.ok db2 k2 => saveExercises fails unit workoutId rest (i + 1) db2 k2
        | WriteResult.failed db2 => WriteResult.failed db2

/-- Total-volume accumulation of `endWorkout` (lines 1046-1054): nested
forEach adding weight times reps of every completed set, warm-up or not. -/
def codeTotalVolume (exs : List ActiveExercise) : ℚ :=
  exs.foldl
    (fun acc e =>
      e.sets.foldl
        (fun a s => if s.completed then a + s.weight * (s.reps : ℚ) else a)
        acc)
    0

/-! ## Personal Record Evaluator (`checkPersonalRecords`, lines 1110-1159) -/

/-- The per-exercise filter: sets with completed true and warm-up false
(line 1115). -/
def filteredSets (ae : ActiveExercise) : List WorkoutSet :=
  ae.sets.filter (fun s => s.completed && !s.is_warmup)

/-- `Math.max(...sets.map(s => s.weight))` on a nonempty list (0 as the
unreachable empty default). -/
def jsMaxWeight : List WorkoutSet → ℚ
  | [] => 0
  | s :: rest => rest.foldl (fun m x => max m x.weight) s.weight

/-- `completedSets.find(set => set.weight === maxWeight)` (line 1121):
first filtered set whose weight equals the maximum weight. -/
def findMaxWeightSet (cs : List WorkoutSet) : Option WorkoutSet :=
  cs.find? (fun s => decide (s.weight = jsMaxWeight cs))

/-- Epley formula (line 1124): weight times (1 + reps / 30). -/
def epley (w : ℚ) (r : Nat) : ℚ := w * (1 + (r : ℚ) / 30)

/-- The read `SELECT value FROM personal_records WHERE user_id AND
exercise_id AND record_type` via getFirstAsync: first matching row. -/
def prQuery (userId exId : Nat) (rtype : String) (db : DB) :
    Option PersonalRecordRow :=
  db.personal_records.find? (fun r =>
    decide (r.user_id = userId) && decide (r.exercise_id = exId) &&
      decide (r.record_type = rtype))

/-- Stored value of the first matching personal record, if any. -/
def storedPRValue (userId exId : Nat) (rtype : String) (db : DB) : Option ℚ :=
  (prQuery userId exId rtype db).map (fun r => r.value)

/-- The update guard of the evaluator: write when no record exists or the
new value strictly exceeds the stored one. -/
def improves (est : ℚ) : Option ℚ → Bool
  | none => true
  | some v => decide (est > v)

/-- The 1RM branch of `checkPersonalRecords` (lines 1119-1139): pick the
first maximum-weight filtered set, estimate via Epley, and insert a fresh
personal-record row when no 1RM record exists or the estimate strictly
exceeds it.  `INSERT OR REPLACE` appends a fresh row here because
`personal_records` has no uniqueness constraint besides its rowid. -/
def check1RM (user : User) (workoutId : Nat) (ae : ActiveExercise) (db : DB) : DB :=
  let cs := filteredSets ae
  match findMaxWeightSet cs with
  | none => db
  | some mset =>
      let mW := jsMaxWeight cs
      let est := epley mW mset.reps
      let doWrite :=
        match prQuery user.id ae.exercise.id "1RM" db with
        | none => true
        | some r => decide (est > r.value)
      if doWrite then
        { db with
          personal_records := db.personal_records ++
            [⟨db.nextPersonalRecordId, user.id, ae.exercise.id, "1RM", est,
              some mset.reps, some mW, some user.preferred_weight_unit,
              some workoutId⟩]
          nextPersonalRecordId := db.nextPersonalRecordId + 1 }
      else db

/-- The volume-PR candidate of an exercise (line 1142): reduce over the
filtered sets adding weight times reps. -/
def volumeCandidate (cs : List WorkoutSet) : ℚ :=
  cs.foldl (fun sum s => sum + s.weight * (s.reps : ℚ)) 0

/-- The volume branch of `checkPersonalRecords` (lines 1141-1154). -/
def checkVolumePR (user : User) (workoutId : Nat) (ae : ActiveExercise) (db : DB) : DB :=
  let tv := volumeCandidate (filteredSets ae)
  let doWrite :=
    match prQuery user.id ae.exercise.id "volume" db with
    | none => true
    | some r => decide (tv > r.value)
  if doWrite then
    { db with
      personal_records := db.personal_records ++
        [⟨db.nextPersonalRecordId, user.id, ae.exercise.id, "volume", tv,
          none, none, none, some workoutId⟩]
      nextPersonalRecordId := db.nextPersonalRecordId + 1 }
  else db

/-- Per-exercise body of `checkPersonalRecords`: skip the exercise entirely
when it has no completed non-warm-up set (the `continue` on line 1117),
otherwise run the 1RM check then the volume check. -/
def checkPRsForExercise (user : User) (workoutId : Nat) (ae : ActiveExercise)
    (db : DB) : DB :=
  if (filteredSets ae).isEmpty then db
  else checkVolumePR user workoutId ae (check1RM user workoutId ae db)

/-- `checkPersonalRecords` (lines 1110-1159) over the session's exercises. -/
def checkPersonalRecords (user : User) (workoutId : Nat)
    (exs : List ActiveExercise) (db : DB) : DB :=
  exs.foldl (fun db ae => checkPRsForExercise user workoutId ae db) db

/-! ## `endWorkout` itself (lines 1030-1108) -/

/-- Observable outcome of `endWorkout`: the early guard return, the
empty-session confirmation dialog, the catch branch's save-error popup, or
the success popup carrying the new workout id. -/
inductive EndOutcome where
  | guardReturn
  | confirmDiscard
  | saveError
  | success (workoutId : Nat)
deriving DecidableEq

/-- `endWorkout`: guard on missing user/db/start time; empty-session
confirmation without any persistence; otherwise the header insert, the
exercise/set insert loops, the PR evaluation (whose own try/catch swallows
its errors) and `resetWorkout` — the catch branch leaves the in-memory
session untouched and shows the save error. -/
def endWorkout (user : User) (now : Nat) (fails : Nat → Bool)
    (s : WorkoutScreenState) (db : DB) :
    WorkoutScreenState × DB × EndOutcome :=
  match s.workoutStartTime with
  | none => (s, db, EndOutcome.guardReturn)
  | some t0 =>
      if s.activeExercises.length = 0 then (s, db, EndOutcome.confirmDiscard)
      else
        let duration := (now - t0) / 1000
        let totalVolume := codeTotalVolume s.activeExercises
        if fails 0 then (s, db, EndOutcome.saveError)
        else
          let workoutId := db.nextWorkoutId
          let db1 : DB :=
            { db with
              workouts := db.workouts ++
                [⟨workoutId, user.id, t0, now, duration, totalVolume,
                  s.workoutNotes⟩]
              nextWorkoutId := workoutId + 1 }
          match saveExercises fails user.preferred_weight_unit workoutId
              s.activeExercises 0 db1 1 with
          | WriteResult.failed db2 => (s, db2, EndOutcome.saveError)
          | WriteResult.ok db2 _ =>
              let db3 := checkPersonalRecords user workoutId s.activeExercises db2
              (resetWorkout s, db3, EndOutcome.success workoutId)

/-! ## Rest Timer (src/unnamed/part_002, RestTimer component) -/

/-- Countdown state of the RestTimer: remaining whole seconds and whether
the interval effect is active. -/
structure RestTimerState where
  timeRemaining : Nat
  isRunning : Bool
deriving DecidableEq

/-- One once-per-second wake-up.  The interval only exists while running
with time remaining (the effect guard on line 50); the callback (lines
52-72) decrements, and at 1 it stops the timer, fires the completion signal
and pins the time at 0.  The Bool records whether the completion signal
fired on this tick. -/
def restTick (s : RestTimerState) : RestTimerState × Bool :=
  if s.isRunning ∧ 0 < s.timeRemaining then
    if s.timeRemaining ≤ 1 then (⟨0, false⟩, true)
    else (⟨s.timeRemaining - 1, true⟩, false)
  else (s, false)

/-- Run `n` ticks, counting how many completion signals fired in total. -/
def runTicks : Nat → RestTimerState → RestTimerState × Nat
  | 0, s => (s, 0)
  | n + 1, s =>
      let r := restTick s
      let rest := runTicks n r.1
      (rest.1, (if r.2 then 1 else 0) + rest.2)

/-! ## Concrete fixtures used by the closed theorems and the witnesses -/

/-- A user with id 1 preferring kilograms. -/
def userEx : User := ⟨1, "kg"⟩

/-- A catalog exercise. -/
def exBench : Exercise := ⟨7, "Bench Press"⟩

/-- One completed working set: 100 kg for 5 reps. -/
def setEx1 : WorkoutSet := ⟨1, 5, 100, true, false, none, none, none⟩

/-- An active exercise holding just `setEx1`. -/
def aeEx : ActiveExercise := ⟨exBench, [setEx1], none⟩

/-- A fresh empty store. -/
def dbEmpty : DB := ⟨[], [], [], [], 1, 1, 1, 1⟩

/-- An active session: started at 0 ms, one exercise, one completed set. -/
def sActive : WorkoutScreenState := ⟨true, some 0, [aeEx], 0, ""⟩

/-- Failure schedule that throws on the second insert (index 1) of the
persistence sequence: the workout header commits, then the first
workout-exercise insert throws. -/
def failSecond : Nat → Bool := fun k => decide (k = 1)

/-- A completed warm-up set: 50 kg for 10 reps. -/
def warmupSet50 : WorkoutSet := ⟨1, 10, 50, true, true, none, none, none⟩

/-- A completed working set: 100 kg for 5 reps (set number 2). -/
def workSet100 : WorkoutSet := ⟨2, 5, 100, true, false, none, none, none⟩

/-- The example session exercise of the volume-aggregation property: one
completed warm-up set and one completed working set. -/
def dualSetExercise : ActiveExercise := ⟨exBench, [warmupSet50, workSet100], none⟩

/-- Result of add-set then remove-set-0 on a freshly added exercise. -/
def c5Result : ActiveExercise :=
  ⟨exBench, [⟨1, 0, 0, false, false, none, none, none⟩], none⟩

/-- An Active session whose clock started at 5000 ms. -/
def activeStateAt5s : WorkoutScreenState := ⟨true, some 5000, [aeEx], 42, "leg day"⟩

/-- An Active session with zero exercises. -/
def sEmptyActive : WorkoutScreenState := ⟨true, some 0, [], 0, ""⟩

/-- An exercise whose set list has been emptied by removals. -/
def emptySetsExercise : ActiveExercise := ⟨exBench, [], none⟩

/-! ## Helper lemmas -/

lemma renumberFrom_length (k : Nat) (l : List WorkoutSet) :
    (renumberFrom k l).length = l.length := by
  induction l generalizing k with
  | nil => rfl
  | cons s rest ih => simp [renumberFrom, ih]

lemma renumberFrom_map_set_number (k : Nat) (l : List WorkoutSet) :
    (renumberFrom k l).map (fun s => s.set_number) = List.range' k l.length := by
  induction l generalizing k with
  | nil => rfl
  | cons s rest ih => simp [renumberFrom, ih, List.range'_succ]

lemma runSetOps_append (l1 l2 : List SetOp) (e : ActiveExercise) :
    runSetOps (l1 ++ l2) e = (runSetOps l1 e).bind (runSetOps l2) := by
  induction l1 generalizing e with
  | nil => rfl
  | cons op rest ih =>
      cases op with
      | add =>
          simp only [List.cons_append, runSetOps]
          cases h : addSetJS e with
          | none => rfl
          | some e1 => simp [ih e1]
      | remove i =>
          simp only [List.cons_append, runSetOps]
          exact ih _

lemma init_le_foldl_max (l : List WorkoutSet) (w : ℚ) :
    w ≤ l.foldl (fun m x => max m x.weight) w := by
  induction l generalizing w with
  | nil => exact le_refl w
  | cons x rest ih =>
      simp only [List.foldl_cons]
      exact le_trans (le_max_left w x.weight) (ih (max w x.weight))

lemma mem_weight_le_foldl_max (l : List WorkoutSet) :
    ∀ (w : ℚ) (x : WorkoutSet), x ∈ l →
      x.weight ≤ l.foldl (fun m y => max m y.weight) w := by
  induction l with
  | nil => intro w x hx; cases hx
  | cons a rest ih =>
      intro w x hx
      simp only [List.foldl_cons]
      rcases List.mem_cons.mp hx with h | h
      · subst h
        exact le_trans (le_max_right w x.weight) (init_le_foldl_max rest _)
      · exact ih _ x h

lemma find?_eq_head?_dropWhile {α : Type} (p : α → Bool) (l : List α) :
    l.find? p = (l.dropWhile (fun a => !p a)).head? := by
  induction l with
  | nil => rfl
  | cons a rest ih =>
      cases hp : p a with
      | true => simp [List.find?_cons, List.dropWhile_cons, hp]
      | false => simp [List.find?_cons, List.dropWhile_cons, hp, ih]

lemma foldl_volume_eq (l : List WorkoutSet) (a : ℚ) :
    l.foldl (fun acc s => acc + s.weight * (s.reps : ℚ)) a =
      a + (l.map (fun s => s.weight * (s.reps : ℚ))).sum := by
  induction l generalizing a with
  | nil => simp
  | cons s rest ih =>
      simp only [List.foldl_cons, List.map_cons, List.sum_cons, ih]
      ring

lemma foldl_completed_volume_eq (l : List WorkoutSet) (a : ℚ) :
    l.foldl (fun acc s => if s.completed then acc + s.weight * (s.reps : ℚ) else acc) a =
      a + ((l.filter (fun s => s.completed)).map
        (fun s => s.weight * (s.reps : ℚ))).sum := by
  induction l generalizing a with
  | nil => simp
  | cons s rest ih =>
      cases hc : s.completed with
      | true =>
          simp only [List.foldl_cons, List.filter_cons, hc, if_pos, ih,
            List.map_cons, List.sum_cons]
          ring
      | false =>
          simp [List.foldl_cons, List.filter_cons, hc, ih]

lemma codeTotalVolume_foldl_eq (exs : List ActiveExercise) (a : ℚ) :
    exs.foldl
      (fun acc e =>
        e.sets.foldl
          (fun b s => if s.completed then b + s.weight * (s.reps : ℚ) else b)
          acc)
      a =
      a + ((((exs.map (fun e => e.sets)).flatten).filter (fun s => s.completed)).map
        (fun s => s.weight * (s.reps : ℚ))).sum := by
  induction exs generalizing a with
  | nil => simp
  | cons e rest ih =>
      simp only [List.foldl_cons]
      rw [ih, foldl_completed_volume_eq]
      simp only [List.map_cons, List.flatten_cons, List.filter_append,
        List.map_append, List.sum_append]
      ring

lemma runTicks_stopped (m t : Nat) :
    runTicks m ⟨t, false⟩ = (⟨t, false⟩, 0) := by
  induction m with
  | zero => rfl
  | succ n ih => simp [runTicks, restTick, ih]

lemma runTicks_completes (n : Nat) :
    ∀ d : Nat, 1 ≤ d → d ≤ n → runTicks n ⟨d, true⟩ = (⟨0, false⟩, 1) := by
  induction n with
  | zero => intro d hd hn; omega
  | succ n ih =>
      intro d hd hn
      by_cases h1 : d = 1
      · subst h1
        simp [runTicks, restTick, runTicks_stopped]
      · have h2 : ¬(d ≤ 1) := by omega
        have hstep : restTick ⟨d, true⟩ = (⟨d - 1, true⟩, false) := by
          simp [restTick, h2]; omega
        have ihd := ih (d - 1) (by omega) (by omega)
        simp [runTicks, hstep, ihd]

lemma runTicks_counts_down (k : Nat) :
    ∀ d : Nat, k < d → runTicks k ⟨d, true⟩ = (⟨d - k, true⟩, 0) := by
  induction k with
  | zero => intro d _; simp [runTicks]
  | succ k ih =>
      intro d hk
      have h2 : ¬(d ≤ 1) := by omega
      have hstep : restTick ⟨d, true⟩ = (⟨d - 1, true⟩, false) := by
        simp [restTick, h2]; omega
      have ihd := ih (d - 1) (by omega)
      have harith : d - 1 - k = d - (k + 1) := by omega
      simp [runTicks, hstep, ihd, harith]

/-! ## Claim theorems -/

/-- C1: the multi-table persistence write of `endWorkout` is NOT
all-or-nothing.  With a session of one exercise and one set, forcing the
second insert (the workout-exercise row) to fail leaves the already
inserted workout header row in the store: afterwards a row with that
session's workout id is observable in `workouts` although the caller was
shown the save error, while `workout_exercises` and `workout_sets` are
empty, and the in-memory session is untouched.  This refutes the claimed
atomicity and exhibits the partial-write bug the spec itself flags. -/
theorem endWorkout_not_atomic :
    (endWorkout userEx 60000 failSecond sActive dbEmpty).2.2 = EndOutcome.saveError ∧
    ((endWorkout userEx 60000 failSecond sActive dbEmpty).2.1.workouts.map
      (fun w => w.id)) = [dbEmpty.nextWorkoutId] ∧
    (endWorkout userEx 60000 failSecond sActive dbEmpty).2.1.workout_exercises = [] ∧
    (endWorkout userEx 60000 failSecond sActive dbEmpty).2.1.workout_sets = [] ∧
    (endWorkout userEx 60000 failSecond sActive dbEmpty).1 = sActive := by
  decide

/-- C2: the `workout_sets` table created by the DatabaseProvider has no
`workout_exercise_id` column (it has `workout_id` and `exercise_id`
instead), while the set insert of `endWorkout` names exactly that column,
so the insert cannot succeed against the created schema. -/
theorem workout_sets_insert_column_mismatch :
    "workout_exercise_id" ∈ insertWorkoutSetsColumns ∧
    "workout_exercise_id" ∉ createWorkoutSetsColumns ∧
    insertColumnsOk insertWorkoutSetsColumns createWorkoutSetsColumns = false := by
  decide

/-- Specification of one run of the 1RM branch of the PR evaluator: the
chosen set is a filtered set, carries the maximum filtered weight, no
filtered set exceeds it, it is the FIRST filtered set attaining the
maximum (head of the list after dropping the non-maximal prefix), the
record table gains exactly the Epley-valued row when no 1RM record exists
or the estimate strictly exceeds the stored value, and an estimate exactly
equal to the stored value leaves the store untouched. -/
def oneRMCheckSpec (user : User) (wid : Nat) (ae : ActiveExercise) (db : DB)
    (mset : WorkoutSet) : Prop :=
  mset ∈ filteredSets ae ∧
  mset.weight = jsMaxWeight (filteredSets ae) ∧
  (filteredSets ae).all (fun s => decide (s.weight ≤ mset.weight)) = true ∧
  findMaxWeightSet (filteredSets ae) =
    ((filteredSets ae).dropWhile
      (fun s => !decide (s.weight = jsMaxWeight (filteredSets ae)))).head? ∧
  (check1RM user wid ae db).personal_records =
    (if improves (epley mset.weight mset.reps)
        (storedPRValue user.id ae.exercise.id "1RM" db) then
      db.personal_records ++
        [⟨db.nextPersonalRecordId, user.id, ae.exercise.id, "1RM",
          epley mset.weight mset.reps, some mset.reps, some mset.weight,
          some user.preferred_weight_unit, some wid⟩]
    else db.personal_records) ∧
  (storedPRValue user.id ae.exercise.id "1RM" db =
      some (epley mset.weight mset.reps) →
    check1RM user wid ae db = db)

/-- C3: for an exercise with at least one completed non-warm-up set, the
1RM evaluator picks the first maximum-weight filtered set (earliest
original order wins ties), computes weight times (1 + reps / 30), and
writes the (user, exercise, 1RM) record if and only if none exists or the
estimate strictly exceeds the stored value; an exactly equal estimate
never updates the record. -/
theorem check1RM_first_max_strict_improvement (user : User) (wid : Nat)
    (ae : ActiveExercise) (db : DB) (mset : WorkoutSet)
    (h1 : filteredSets ae ≠ [])
    (hm : findMaxWeightSet (filteredSets ae) = some mset) :
    oneRMCheckSpec user wid ae db mset := by
  have hm' : (filteredSets ae).find?
      (fun s => decide (s.weight = jsMaxWeight (filteredSets ae))) = some mset := hm
  have hmem : mset ∈ filteredSets ae := List.mem_of_find?_eq_some hm'
  have hweq : mset.weight = jsMaxWeight (filteredSets ae) := by
    have hfind := List.find?_some hm'
    simpa [decide_eq_true_eq] using hfind
  have hub : ∀ x ∈ filteredSets ae, x.weight ≤ jsMaxWeight (filteredSets ae) := by
    intro x hx
    cases hcs : filteredSets ae with
    | nil => rw [hcs] at hx; cases hx
    | cons a rest =>
        rw [hcs] at hx
        show x.weight ≤ rest.foldl (fun m y => max m y.weight) a.weight
        rcases List.mem_cons.mp hx with hxa | hxr
        · subst hxa; exact init_le_foldl_max rest _
        · exact mem_weight_le_foldl_max rest _ x hxr
  refine ⟨hmem, hweq, ?_, ?_, ?_, ?_⟩
  · rw [List.all_eq_true]
    intro s hs
    rw [decide_eq_true_eq, hweq]
    exact hub s hs
  · exact find?_eq_head?_dropWhile _ _
  · cases hq : prQuery user.id ae.exercise.id "1RM" db with
    | none =>
        simp [check1RM, hm, hq, storedPRValue, improves, ← hweq]
    | some r =>
        by_cases hgt : epley mset.weight mset.reps > r.value
        · simp [check1RM, hm, hq, storedPRValue, improves, ← hweq, hgt]
        · simp [check1RM, hm, hq, storedPRValue, improves, ← hweq, hgt]
  · intro hst
    rcases Option.map_eq_some'.mp hst with ⟨r, hq, hv⟩
    have hngt : ¬(epley (jsMaxWeight (filteredSets ae)) mset.reps > r.value) := by
      rw [← hweq, hv]
      exact lt_irrefl _
    simp [check1RM, hm, hq, hngt]

/-- C3 witness: concrete instantiation on a one-set exercise over an empty
store. -/
theorem check1RM_first_max_strict_improvement_witness :
    (filteredSets aeEx ≠ [] ∧
      findMaxWeightSet (filteredSets aeEx) = some setEx1) ∧
    oneRMCheckSpec userEx 1 aeEx dbEmpty setEx1 :=
  ⟨⟨by decide, by decide⟩,
    check1RM_first_max_strict_improvement userEx 1 aeEx dbEmpty setEx1
      (by decide) (by decide)⟩

/-- C4: the workout-header volume of `endWorkout` sums weight times reps
over ALL completed sets (warm-ups included), the per-exercise volume-PR
candidate sums only completed non-warm-up sets, and on the example session
(completed warm-up 50x10 plus completed working set 100x5) they give 1000
and 500 respectively. -/
theorem header_volume_vs_pr_candidate (exs : List ActiveExercise)
    (ae : ActiveExercise) :
    codeTotalVolume exs =
      ((((exs.map (fun e => e.sets)).flatten).filter (fun s => s.completed)).map
        (fun s => s.weight * (s.reps : ℚ))).sum ∧
    volumeCandidate (filteredSets ae) =
      ((ae.sets.filter (fun s => s.completed && !s.is_warmup)).map
        (fun s => s.weight * (s.reps : ℚ))).sum ∧
    codeTotalVolume [dualSetExercise] = 1000 ∧
    volumeCandidate (filteredSets dualSetExercise) = 500 := by
  refine ⟨?_, ?_, ?_, ?_⟩
  · unfold codeTotalVolume
    rw [codeTotalVolume_foldl_eq, zero_add]
  · unfold volumeCandidate filteredSets
    rw [foldl_volume_eq, zero_add]
  · simp [codeTotalVolume, dualSetExercise, warmupSet50, workSet100]
    norm_num
  · simp [volumeCandidate, filteredSets, dualSetExercise, warmupSet50,
      workSet100]
    norm_num

/-- C5: after any sequence of add/remove-set operations on one exercise
that ends in a removal (and did not fault), the remaining sets carry set
numbers equal to their 1-based positions: the list of set numbers is
exactly 1, 2, ..., N. -/
theorem removeSet_renumbers_contiguous (ops : List SetOp) (i : Nat)
    (e e' : ActiveExercise)
    (h : runSetOps (ops ++ [SetOp.remove i]) e = some e') :
    e'.sets.map (fun s => s.set_number) = List.range' 1 e'.sets.length := by
  rw [runSetOps_append] at h
  cases h1 : runSetOps ops e with
  | none => rw [h1] at h; simp at h
  | some e1 =>
      rw [h1] at h
      simp only [Option.some_bind] at h
      have h2 : removeSetJS e1 i = e' := by
        simpa [runSetOps] using h
      subst h2
      simp only [removeSetJS]
      rw [renumberFrom_map_set_number, renumberFrom_length]

/-- C5 witness: add one set to a freshly added exercise then remove the
first set; the surviving set is renumbered to 1. -/
theorem removeSet_renumbers_contiguous_witness :
    runSetOps ([SetOp.add] ++ [SetOp.remove 0]) (newActiveExercise exBench) =
      some c5Result ∧
    c5Result.sets.map (fun s => s.set_number) =
      List.range' 1 c5Result.sets.length :=
  ⟨by decide,
    removeSet_renumbers_contiguous [SetOp.add] 0 (newActiveExercise exBench)
      c5Result (by decide)⟩

/-- C6 counterexample: calling `startWorkout` on an already Active session
is NOT a no-op: the state changes and in particular the original start
timestamp (5000 ms) is replaced by the new current time (10000 ms). -/
theorem startWorkout_while_active_changes_state :
    activeStateAt5s.isWorkoutActive = true ∧
    startWorkout 10000 activeStateAt5s ≠ activeStateAt5s ∧
    (startWorkout 10000 activeStateAt5s).workoutStartTime ≠
      activeStateAt5s.workoutStartTime := by
  decide

/-- C6 amended: `startWorkout` called while a session is already Active
keeps the session Active and preserves its exercises and notes, but resets
the start timestamp to the supplied current time and the elapsed timer to
zero (the function itself has no Active-state guard; only its call sites
check `isWorkoutActive`). -/
theorem startWorkout_while_active_resets_clock (now : Nat)
    (s : WorkoutScreenState) (h : s.isWorkoutActive = true) :
    (startWorkout now s).isWorkoutActive = true ∧
    (startWorkout now s).workoutStartTime = some now ∧
    (startWorkout now s).timer = 0 ∧
    (startWorkout now s).activeExercises = s.activeExercises ∧
    (startWorkout now s).workoutNotes = s.workoutNotes := by
  simp [startWorkout]

/-- C6 amended witness: the Active session started at 5000 ms. -/
theorem startWorkout_while_active_resets_clock_witness :
    activeStateAt5s.isWorkoutActive = true ∧
    ((startWorkout 10000 activeStateAt5s).isWorkoutActive = true ∧
     (startWorkout 10000 activeStateAt5s).workoutStartTime = some 10000 ∧
     (startWorkout 10000 activeStateAt5s).timer = 0 ∧
     (startWorkout 10000 activeStateAt5s).activeExercises =
       activeStateAt5s.activeExercises ∧
     (startWorkout 10000 activeStateAt5s).workoutNotes =
       activeStateAt5s.workoutNotes) :=
  ⟨by decide,
    startWorkout_while_active_resets_clock 10000 activeStateAt5s (by decide)⟩

/-- C7: when `endWorkout` runs on an Active session with at least one
exercise, either some insert failed, the outcome is the save error and the
in-memory session state is returned completely unchanged (still Active,
exercises, start time and notes preserved, ready for retry), or every
insert succeeded, the outcome is success with the new workout id and only
then is the in-memory state cleared via `resetWorkout`. -/
theorem endWorkout_failure_preserves_session (user : User) (now : Nat)
    (fails : Nat → Bool) (s : WorkoutScreenState) (db : DB) (t0 : Nat)
    (h0 : s.workoutStartTime = some t0) (he : s.activeExercises ≠ []) :
    ((endWorkout user now fails s db).2.2 = EndOutcome.saveError ∧
      (endWorkout user now fails s db).1 = s) ∨
    ((endWorkout user now fails s db).2.2 = EndOutcome.success db.nextWorkoutId ∧
      (endWorkout user now fails s db).1 = resetWorkout s) := by
  have hl : ¬(s.activeExercises.length = 0) := by
    simpa [List.length_eq_zero] using he
  simp only [endWorkout, h0]
  rw [if_neg hl]
  by_cases hf : fails 0
  · rw [if_pos hf]
    exact Or.inl ⟨rfl, rfl⟩
  · rw [if_neg hf]
    split
    · exact Or.inl ⟨rfl, rfl⟩
    · exact Or.inr ⟨rfl, rfl⟩

/-- C7 witness: the one-exercise session with the second insert failing
lands in the left branch with the session preserved. -/
theorem endWorkout_failure_preserves_session_witness :
    (sActive.workoutStartTime = some 0 ∧ sActive.activeExercises ≠ []) ∧
    (((endWorkout userEx 60000 failSecond sActive dbEmpty).2.2 =
        EndOutcome.saveError ∧
      (endWorkout userEx 60000 failSecond sActive dbEmpty).1 = sActive) ∨
     ((endWorkout userEx 60000 failSecond sActive dbEmpty).2.2 =
        EndOutcome.success dbEmpty.nextWorkoutId ∧
      (endWorkout userEx 60000 failSecond sActive dbEmpty).1 =
        resetWorkout sActive)) :=
  ⟨⟨rfl, by decide⟩,
    endWorkout_failure_preserves_session userEx 60000 failSecond sActive
      dbEmpty 0 rfl (by decide)⟩

/-- C8: `endWorkout` on an Active session with zero exercises performs no
persistence and does not discard: the component state and the store are
returned unchanged and the outcome is the confirm-discard request, so no
workout row is ever written for an empty session. -/
theorem endWorkout_empty_confirms_discard (user : User) (now : Nat)
    (fails : Nat → Bool) (s : WorkoutScreenState) (db : DB) (t0 : Nat)
    (h0 : s.workoutStartTime = some t0) (he : s.activeExercises = []) :
    endWorkout user now fails s db = (s, db, EndOutcome.confirmDiscard) := by
  simp [endWorkout, h0, he]

/-- C8 witness: an Active empty session over the empty store. -/
theorem endWorkout_empty_confirms_discard_witness :
    (sEmptyActive.workoutStartTime = some 0 ∧
      sEmptyActive.activeExercises = []) ∧
    endWorkout userEx 60000 failSecond sEmptyActive dbEmpty =
      (sEmptyActive, dbEmpty, EndOutcome.confirmDiscard) :=
  ⟨⟨rfl, rfl⟩,
    endWorkout_empty_confirms_discard userEx 60000 failSecond sEmptyActive
      dbEmpty 0 rfl rfl⟩

/-- C9: a rest-timer run started at d whole seconds (d at least 1)
decreases by one per tick (after k < d ticks the remaining time is d - k
with no signal yet), and over any number n of ticks with n at least d it
reaches zero, stops, and fires the completion signal exactly once —
further ticks never re-trigger it. -/
theorem restTimer_completion_fires_once (d n k : Nat) (hd : 1 ≤ d)
    (hn : d ≤ n) (hk : k < d) :
    runTicks n ⟨d, true⟩ = (⟨0, false⟩, 1) ∧
    runTicks k ⟨d, true⟩ = (⟨d - k, true⟩, 0) :=
  ⟨runTicks_completes n d hd hn, runTicks_counts_down k d hk⟩

/-- C9 witness: a 3-second run observed after 2 and after 5 ticks. -/
theorem restTimer_completion_fires_once_witness :
    (1 ≤ 3 ∧ 3 ≤ 5 ∧ 2 < 3) ∧
    (runTicks 5 ⟨3, true⟩ = (⟨0, false⟩, 1) ∧
     runTicks 2 ⟨3, true⟩ = (⟨3 - 2, true⟩, 0)) :=
  ⟨by decide,
    restTimer_completion_fires_once 3 5 2 (by decide) (by decide) (by decide)⟩

/-- C10: `removeSet` can empty an exercise created by `addExercise` (which
guarantees only the initial set), and `addSet` on an exercise whose set
list is empty reads the fields of a nonexistent last set — a runtime fault
modelled as `none` — so `addSet` has the unstated precondition that the
exercise still holds at least one set. -/
theorem addSet_empty_sets_fault (ex : Exercise) (e : ActiveExercise)
    (h : e.sets = []) :
    (removeSetJS (newActiveExercise ex) 0).sets = [] ∧
    addSetJS (removeSetJS (newActiveExercise ex) 0) = none ∧
    addSetJS e = none := by
  refine ⟨?_, ?_, ?_⟩
  · simp [removeSetJS, newActiveExercise, List.eraseIdx, renumberFrom]
  · simp [addSetJS, removeSetJS, newActiveExercise, List.eraseIdx,
      renumberFrom]
  · simp [addSetJS, h]

/-- C10 witness: the concrete emptied exercise. -/
theorem addSet_empty_sets_fault_witness :
    emptySetsExercise.sets = [] ∧
    ((removeSetJS (newActiveExercise exBench) 0).sets = [] ∧
     addSetJS (removeSetJS (newActiveExercise exBench) 0) = none ∧
     addSetJS emptySetsExercise = none) :=
  ⟨rfl, addSet_empty_sets_fault exBench emptySetsExercise rfl⟩

end Neutra
